import Mathlib

/-
Verification of the ghostprotocol core against its specification.

The Python source is shallowly embedded: dictionaries become association
lists over `String` keys, mutation becomes explicit state passing on
service records, raised exceptions become `Except` error values, and
float arithmetic is carried out over `ℚ`.  Each definition mirrors one
function of the source (the file and symbol are named in its doc
comment).
-/

namespace GhostProtocol

/-- Session lifecycle states, from `SessionState` in src/memory_session.py. -/
inductive SessionState
  | created
  | monitoring
  | deathDetected
  | assetScanning
  | legacyExecuting
  | contractExecuting
  | completed
  | failed
  | paused
  deriving DecidableEq, Repr

/-- The allowed-target table of `InMemorySessionService._is_valid_transition`
(src/memory_session.py lines 229-239), transcribed entry for entry. -/
def validTransitions : SessionState → List SessionState
  | .created => [.monitoring]
  | .monitoring => [.deathDetected, .paused]
  | .deathDetected => [.assetScanning]
  | .assetScanning => [.legacyExecuting, .contractExecuting]
  | .legacyExecuting => [.completed, .failed]
  | .contractExecuting => [.completed, .failed]
  | .paused => [.monitoring, .assetScanning]
  | .completed => []
  | .failed => []

/-- Membership test `target in valid_transitions.get(current, [])` of
`InMemorySessionService._is_valid_transition`. -/
def is_valid_transition (current target : SessionState) : Bool :=
  decide (target ∈ validTransitions current)

/-- The `.value` strings of the `SessionState` enum members
(src/memory_session.py lines 17-26): lowercase snake-case strings. -/
def SessionState.value : SessionState → String
  | .created => "created"
  | .monitoring => "monitoring"
  | .deathDetected => "death_detected"
  | .assetScanning => "asset_scanning"
  | .legacyExecuting => "legacy_executing"
  | .contractExecuting => "contract_executing"
  | .completed => "completed"
  | .failed => "failed"
  | .paused => "paused"

/-- Python `SessionState[name]`: enum subscript by member NAME.  The member
names are the uppercase identifiers, so every other string — in particular
the lowercase `.value` strings — raises `KeyError`, here `none`. -/
def sessionStateByName : String → Option SessionState
  | "CREATED" => some .created
  | "MONITORING" => some .monitoring
  | "DEATH_DETECTED" => some .deathDetected
  | "ASSET_SCANNING" => some .assetScanning
  | "LEGACY_EXECUTING" => some .legacyExecuting
  | "CONTRACT_EXECUTING" => some .contractExecuting
  | "COMPLETED" => some .completed
  | "FAILED" => some .failed
  | "PAUSED" => some .paused
  | _ => none

/-- Lookup in an association list; models Python `dict.get(key)` on the
string-keyed dictionaries of the session service. -/
def alistGet (l : List (String × β)) (k : String) : Option β :=
  match l with
  | [] => none
  | (k0, v) :: rest => if k0 = k then some v else alistGet rest k

/-- Insert-or-overwrite in an association list; models Python
`dict[key] = value`. -/
def alistSet (l : List (String × β)) (k : String) (v : β) : List (String × β) :=
  match l with
  | [] => [(k, v)]
  | (k0, v0) :: rest => if k0 = k then (k0, v) :: rest else (k0, v0) :: alistSet rest k v

/-- A checkpoint snapshot, from `InMemorySessionService.create_checkpoint`:
the source stores `session.state.value` — the lowercase value STRING, not the
enum member — together with the current agent and a copy of the session's
data store.  The wall-clock timestamp field is omitted (it carries no
program-visible information). -/
structure Checkpoint (α : Type) where
  state : String
  agent : Option String
  dataSnapshot : List (String × α)
  deriving DecidableEq, Repr

/-- The mutable fields of `SessionMetadata` that the claims observe: state,
current agent, and the optional checkpoint.  Identifiers and timestamps are
omitted (immutable bookkeeping). -/
structure SessionMetadata (α : Type) where
  state : SessionState
  currentAgent : Option String
  checkpoint : Option (Checkpoint α)
  deriving DecidableEq, Repr

/-- The in-memory stores of `InMemorySessionService`: `self.sessions` and
`self.session_data`, both keyed by session id.  The append-only
`state_history` log and the disk persistence hooks are omitted (no claim
observes them). -/
structure SessionService (α : Type) where
  sessions : List (String × SessionMetadata α)
  sessionData : List (String × List (String × α))
  deriving DecidableEq, Repr

/-- The exceptions raised by the session service: the three `ValueError`
conditions, and the `KeyError` (with the failed key) that the enum subscript
in `rollback_to_checkpoint` raises. -/
inductive SessionError
  | sessionNotFound
  | invalidTransition
  | noCheckpoint
  | keyError (key : String)
  deriving DecidableEq, Repr

/-- Returns `true` exactly on the `.ok` branch of an `Except` value. -/
def exceptOk : Except ε β → Bool
  | .ok _ => true
  | .error _ => false

/-- From `InMemorySessionService.create_session`: registers a fresh session
in state `created` with an empty data store.  The hash-generated id is taken
as an argument. -/
def create_session (svc : SessionService α) (sessionId : String) : SessionService α :=
  { sessions := alistSet svc.sessions sessionId ⟨.created, none, none⟩,
    sessionData := alistSet svc.sessionData sessionId [] }

/-- From `InMemorySessionService.update_state` (src/memory_session.py lines
81-104): raises if the session is missing or the transition is invalid,
otherwise overwrites state, current agent and — unconditionally — the
checkpoint field with the given arguments (the Python defaults are
`agent=None, checkpoint=None`; callers here pass them explicitly). -/
def update_state (svc : SessionService α) (sessionId : String) (newState : SessionState)
    (agent : Option String) (checkpoint : Option (Checkpoint α)) :
    Except SessionError (SessionService α) :=
  match alistGet svc.sessions sessionId with
  | none => .error .sessionNotFound
  | some session =>
    if is_valid_transition session.state newState then
      .ok { svc with sessions := alistSet svc.sessions sessionId ⟨newState, agent, checkpoint⟩ }
    else
      .error .invalidTransition

/-- From `InMemorySessionService.set_data`: raises `Session not found` when
the id is absent from `session_data`, otherwise writes through. -/
def set_data (svc : SessionService α) (sessionId key : String) (value : α) :
    Except SessionError (SessionService α) :=
  match alistGet svc.sessionData sessionId with
  | none => .error .sessionNotFound
  | some data =>
    .ok { svc with sessionData := alistSet svc.sessionData sessionId (alistSet data key value) }

/-- From `InMemorySessionService.get_data`: literally
`self.session_data.get(session_id, \x7b\x7d).get(key)` — a missing session or
key yields Python `None` (here `Option.none`); no exception is raised. -/
def get_data (svc : SessionService α) (sessionId key : String) : Option α :=
  alistGet ((alistGet svc.sessionData sessionId).getD []) key

/-- From `InMemorySessionService.create_checkpoint`: raises when the session
is missing (the direct `self.session_data[session_id]` indexing likewise
raises `KeyError` when the data store is missing), otherwise snapshots state,
agent and a copy of the data store, and stores the snapshot on the session. -/
def create_checkpoint (svc : SessionService α) (sessionId : String) :
    Except SessionError (Checkpoint α × SessionService α) :=
  match alistGet svc.sessions sessionId with
  | none => .error .sessionNotFound
  | some session =>
    match alistGet svc.sessionData sessionId with
    | none => .error .sessionNotFound
    | some data =>
      let cp : Checkpoint α := ⟨SessionState.value session.state, session.currentAgent, data⟩
      let newSessions := alistSet svc.sessions sessionId ({ session with checkpoint := some cp })
      .ok (cp, { svc with sessions := newSessions })

/-- From `InMemorySessionService.rollback_to_checkpoint`: raises
`No checkpoint available` when the session is missing or carries no
checkpoint; otherwise assigns the data-store snapshot back and then executes
`session.state = SessionState[checkpoint["state"]]` — a subscript by member
NAME on the lowercase value string stored by `create_checkpoint`, which
raises `KeyError` and leaves state and agent unrestored.  In the source the
in-place data-store assignment precedes the lookup, so on `KeyError` the
data store is already mutated while the exception propagates; the error
branch here drops that partial mutation, which no theorem below observes
(the success path is unreachable for program-created checkpoints). -/
def rollback_to_checkpoint (svc : SessionService α) (sessionId : String) :
    Except SessionError (SessionService α) :=
  match alistGet svc.sessions sessionId with
  | none => .error .noCheckpoint
  | some session =>
    match session.checkpoint with
    | none => .error .noCheckpoint
    | some cp =>
      match sessionStateByName cp.state with
      | none => .error (.keyError cp.state)
      | some st =>
        let restored := alistSet svc.sessions sessionId
          ({ session with state := st, currentAgent := cp.agent })
        .ok { sessions := restored,
              sessionData := alistSet svc.sessionData sessionId cp.dataSnapshot }

/-- Sequencing `create_checkpoint` directly followed by
`rollback_to_checkpoint`, with no intervening operation. -/
def checkpoint_then_rollback (svc : SessionService α) (sessionId : String) :
    Except SessionError (SessionService α) :=
  match create_checkpoint svc sessionId with
  | .error e => .error e
  | .ok (_, svc1) => rollback_to_checkpoint svc1 sessionId

/-- The custom exception classes of src/retry_handler.py that the retry
loop can observe (`NetworkError`, `HTTPError(status_code)`, `RateLimitError`,
`InvalidKeyError`, `TimeoutError`). -/
inductive PyErr
  | networkError
  | httpError (statusCode : Nat)
  | rateLimitError
  | invalidKeyError
  | timeoutError
  deriving DecidableEq, Repr

/-- From `classify_error` (src/retry_handler.py lines 401-440), restricted to
the custom error classes above: the leading `isinstance` chain fires for all
of them, so the later string-matching branches (including the one that can
return the string ClientError) are never reached for these inputs. -/
def classify_error : PyErr → String
  | .networkError => "NetworkError"
  | .httpError statusCode => "HTTPError(" ++ toString statusCode ++ ")"
  | .rateLimitError => "RateLimitError"
  | .invalidKeyError => "InvalidKeyError"
  | .timeoutError => "TimeoutError"

/-- The retry-eligibility test actually used by `with_retry`
(src/retry_handler.py line 266): `isinstance(e, (InvalidKeyError,))`.
Only `InvalidKeyError` short-circuits the loop. -/
def nonRetryableInCode : PyErr → Bool
  | .invalidKeyError => true
  | _ => false

/-- From `calculate_backoff_delay` (src/retry_handler.py lines 371-398):
`base_delay * 2 ** attempt`, optionally multiplied by a uniform jitter factor
drawn from `[0.75, 1.25]`; the draw is passed in as `jitterFactor`. -/
def calculate_backoff_delay (attempt : Nat) (baseDelay : ℚ) (useJitter : Bool)
    (jitterFactor : ℚ) : ℚ :=
  let delay := baseDelay * 2 ^ attempt
  if useJitter then delay * jitterFactor else delay

deriving instance DecidableEq for Except

/-- Observable outcome of one `with_retry`-wrapped call: the final result,
the number of attempts executed, and the backoff sleeps performed (in
order). -/
structure RetryOutcome (α : Type) where
  result : Except PyErr α
  attemptsMade : Nat
  sleeps : List ℚ
  deriving DecidableEq, Repr

/-- The retry loop of `with_retry` (src/retry_handler.py lines 157-361),
embedded over a pure attempt function `f` (attempt index to outcome) and a
pure jitter draw per attempt.  The wall clock and the rate limiter are
abstracted away: the overall-timeout check and the rate-limit wait at the top
of each iteration affect timing only and never change which errors retry.
`fuel` starts at `maxRetries + 1`, matching `range(max_retries + 1)`, so the
fuel-exhausted branch is unreachable. -/
def with_retry_go (baseDelay : ℚ) (useJitter : Bool) (jitter : Nat → ℚ)
    (maxRetries : Nat) (f : Nat → Except PyErr α) :
    Nat → Nat → List ℚ → RetryOutcome α
  | 0, attempt, sleeps => ⟨.error .timeoutError, attempt, sleeps.reverse⟩
  | fuel + 1, attempt, sleeps =>
    match f attempt with
    | .ok v => ⟨.ok v, attempt + 1, sleeps.reverse⟩
    | .error e =>
      if nonRetryableInCode e then ⟨.error e, attempt + 1, sleeps.reverse⟩
      else if attempt = maxRetries then ⟨.error e, attempt + 1, sleeps.reverse⟩
      else
        with_retry_go baseDelay useJitter jitter maxRetries f fuel (attempt + 1)
          (calculate_backoff_delay attempt baseDelay useJitter (jitter attempt) :: sleeps)

/-- Entry point of the embedded `with_retry` loop: attempt indices run from 0
with `maxRetries + 1` iterations available and no sleeps performed yet. -/
def with_retry (maxRetries : Nat) (baseDelay : ℚ) (useJitter : Bool)
    (jitter : Nat → ℚ) (f : Nat → Except PyErr α) : RetryOutcome α :=
  with_retry_go baseDelay useJitter jitter maxRetries f (maxRetries + 1) 0 []

/-- The sliding-window rate limiter of src/retry_handler.py (`RateLimiter`):
per-tool lists of admitted timestamps, modelled over rational time. -/
structure RateLimiter where
  maxRequests : Nat
  windowSeconds : ℚ
  requests : List (String × List ℚ)
  deriving DecidableEq, Repr

/-- Per-tool timestamp list with the `defaultdict(list)` read semantics. -/
def getRequests (rl : RateLimiter) (tool : String) : List ℚ :=
  (alistGet rl.requests tool).getD []

/-- The lazy-eviction step of `RateLimiter.is_allowed`: keep the timestamps
with `now - req_time < window_seconds`. -/
def pruned_requests (rl : RateLimiter) (now : ℚ) (tool : String) : List ℚ :=
  (getRequests rl tool).filter (fun t => decide (now - t < rl.windowSeconds))

/-- From `RateLimiter.is_allowed` (src/retry_handler.py lines 92-107): prune
stale timestamps, then admit — appending the current timestamp — exactly when
fewer than `max_requests` timestamps remain in the window. -/
def is_allowed (rl : RateLimiter) (now : ℚ) (tool : String) : Bool × RateLimiter :=
  let pruned := pruned_requests rl now tool
  if pruned.length < rl.maxRequests then
    (true, { rl with requests := alistSet rl.requests tool (pruned ++ [now]) })
  else
    (false, { rl with requests := alistSet rl.requests tool pruned })

/-- Python `min` over a list, with an arbitrary value on the empty list (the
source only calls it on non-empty lists, guarded by the emptiness check in
`wait_time`). -/
def listMin (l : List ℚ) : ℚ := l.foldl min (l.headD 0)

/-- From `RateLimiter.wait_time` (src/retry_handler.py lines 109-116):
`max(0, min(timestamps) + window_seconds - now)`, and `0` when no timestamps
are recorded; no pruning happens here. -/
def wait_time (rl : RateLimiter) (now : ℚ) (tool : String) : ℚ :=
  let reqs := getRequests rl tool
  if reqs.isEmpty then 0
  else max 0 (listMin reqs + rl.windowSeconds - now)

/-- The environment inputs of the mode resolution in src/config.py: the three
boolean env toggles plus the set of credential identifiers present in the
environment. -/
structure ModeEnv where
  forceRealtimeOverride : Bool
  realtimeMode : Bool
  useMockDataFlag : Bool
  availableCreds : List String
  deriving DecidableEq, Repr

/-- From `CRITICAL_API_KEYS` (src/config.py lines 141-143). -/
def CRITICAL_API_KEYS : List String := ["GEMINI_API_KEY"]

/-- From the mode override logic of src/config.py lines 37-42: note that the
computation reads only the three boolean flags — the credential set of the
environment is never consulted (`validate_configuration` merely prints a
warning when critical keys are missing). -/
def FINAL_MOCK_MODE (env : ModeEnv) : Bool :=
  if env.forceRealtimeOverride then false
  else if env.realtimeMode && !env.useMockDataFlag then false
  else true

/-- From src/config.py line 45: `USE_REALTIME = (FINAL_MOCK_MODE is False)`. -/
def USE_REALTIME (env : ModeEnv) : Bool := !(FINAL_MOCK_MODE env)

/-- Modelled from the spec's words, for comparison with `USE_REALTIME`:
the effective mode is Live iff the force-live override is set, or else the
use-live toggle is set AND the mock-override is absent AND all critical,
globally-required credentials are present. -/
def effective_live_spec (env : ModeEnv) : Bool :=
  env.forceRealtimeOverride ||
    (env.realtimeMode && !env.useMockDataFlag &&
      CRITICAL_API_KEYS.all (fun k => env.availableCreds.contains k))

/-- From src/config.py line 127. -/
def REALTIME_CONFIDENCE_THRESHOLD : ℚ := 85 / 100

/-- From src/config.py line 128. -/
def MOCK_CONFIDENCE_THRESHOLD : ℚ := 60 / 100

/-- From `get_confidence_threshold` (src/config.py lines 173-175), with the
resolved mode as input. -/
def get_confidence_threshold (useRealtime : Bool) : ℚ :=
  if useRealtime then REALTIME_CONFIDENCE_THRESHOLD else MOCK_CONFIDENCE_THRESHOLD

/-- The observable outputs of the confirmation decision: `is_confirmed` and
`confidence` of the result dictionary. -/
structure DetectionResult where
  isConfirmed : Bool
  confidence : ℚ
  deriving DecidableEq, Repr

/-- From `RealtimeDeathDetectionAgent.execute` (src/agents_realtime.py lines
186-194) with the threshold resolved as in the agent's constructor (line 28):
with evidence present, `avg_confidence` is the sum of the confidences divided
by their count and `is_confirmed = manual_trigger or avg >= threshold`;
without evidence the stage is unconfirmed with confidence 0. -/
def death_detection_confirm (useRealtime manualTrigger : Bool)
    (evidence : List ℚ) : DetectionResult :=
  if evidence = [] then ⟨false, 0⟩
  else
    let avg := evidence.sum / (evidence.length : ℚ)
    ⟨manualTrigger || decide (get_confidence_threshold useRealtime ≤ avg), avg⟩

theorem alistGet_alistSet_self (l : List (String × β)) (k : String) (v : β) :
    alistGet (alistSet l k v) k = some v := by
  induction l with
  | nil => simp [alistSet, alistGet]
  | cons hd tl ih =>
    obtain ⟨k0, v0⟩ := hd
    by_cases hk : k0 = k <;> simp [alistSet, alistGet, hk, ih]

/-- A service holding one session `s1` in the given state, with an empty data
store. -/
def svcWithState (st : SessionState) : SessionService Nat :=
  ⟨[("s1", ⟨st, none, none⟩)], [("s1", [])]⟩

/-- The empty service: no sessions at all. -/
def svcEmpty : SessionService Nat := ⟨[], []⟩

/-- A service holding one session `s1` in state `monitoring`, with agent
`stageA` and one data-store entry. -/
def svcMon : SessionService Nat :=
  ⟨[("s1", ⟨.monitoring, some "stageA", none⟩)], [("s1", [("k", 7)])]⟩

/-- C1: the claim says `update_state(sessionId, FAILED)` succeeds from every
state except `Completed` and `Failed`.  The code rejects it: the transition
table of `_is_valid_transition` lists `FAILED` as a target only of
`LEGACY_EXECUTING` and `CONTRACT_EXECUTING`, so from `CREATED`,
`MONITORING`, `DEATH_DETECTED`, `ASSET_SCANNING` and `PAUSED` the call
raises `Invalid transition` — contradicting the module's own
`SESSION_LIFECYCLE_DIAGRAM` (`Any state -> FAILED (error)`). -/
theorem failed_transition_rejected_from_nonterminal :
    update_state (svcWithState .created) "s1" .failed none none = .error .invalidTransition ∧
    update_state (svcWithState .monitoring) "s1" .failed none none = .error .invalidTransition ∧
    update_state (svcWithState .deathDetected) "s1" .failed none none
      = .error .invalidTransition ∧
    update_state (svcWithState .assetScanning) "s1" .failed none none
      = .error .invalidTransition ∧
    update_state (svcWithState .paused) "s1" .failed none none = .error .invalidTransition ∧
    update_state (svcWithState .legacyExecuting) "s1" .failed none none
      = .ok (svcWithState .failed) ∧
    update_state (svcWithState .contractExecuting) "s1" .failed none none
      = .ok (svcWithState .failed) := by
  decide

/-- C5 counterexample: the claim says `getData` on a missing session fails
with a session-not-found error and does not return a default value.  On the
empty service, `set_data` does raise, but `get_data` silently returns Python
`None` — the default of `dict.get` — exactly as it would for an existing
session with the key absent. -/
theorem get_data_returns_default :
    set_data svcEmpty "s1" "k" 0 = .error .sessionNotFound ∧
    get_data svcEmpty "s1" "k" = none := by
  decide

/-- C5 amended: for a session id absent from the data store, `set_data`
fails with the session-not-found error, while `get_data` never fails — it
returns `none` (Python `None`, the default) instead. -/
theorem missing_session_data_access (svc : SessionService α) (sid k : String) (v : α)
    (h : alistGet svc.sessionData sid = none) :
    set_data svc sid k v = .error .sessionNotFound ∧ get_data svc sid k = none := by
  constructor
  · simp [set_data, h]
  · simp [get_data, h, alistGet]

/-- C5 witness: instantiation of `missing_session_data_access` at the service
that holds only session `s1`, queried for the absent session `s2`. -/
theorem missing_session_data_access_witness :
    set_data svcMon "s2" "k" 3 = .error .sessionNotFound ∧
    get_data svcMon "s2" "k" = none :=
  missing_session_data_access svcMon "s2" "k" 3 (by decide)

/-- C8: from a session in state `created`, the transition to `monitoring`
succeeds and the transition to `completed` fails with the invalid-transition
error; from `completed` or `failed` every transition to every target fails —
the two states are terminal. -/
theorem state_machine_endpoints (svc : SessionService α) (sid : String)
    (s : SessionMetadata α) (hs : alistGet svc.sessions sid = some s) :
    (s.state = .created →
      exceptOk (update_state svc sid .monitoring none none) = true ∧
      update_state svc sid .completed none none = .error .invalidTransition) ∧
    ((s.state = .completed ∨ s.state = .failed) →
      ∀ (target : SessionState) (agent : Option String) (cp : Option (Checkpoint α)),
        update_state svc sid target agent cp = .error .invalidTransition) := by
  constructor
  · intro h1
    constructor
    · simp [update_state, hs, h1, is_valid_transition, validTransitions, exceptOk]
    · simp [update_state, hs, h1, is_valid_transition, validTransitions]
  · rintro (h1 | h1) target agent cp <;>
      simp [update_state, hs, h1, is_valid_transition, validTransitions]

/-- C8 witness: instantiation of `state_machine_endpoints` at a concrete
session in state `created`. -/
theorem state_machine_endpoints_witness :
    exceptOk (update_state (svcWithState .created) "s1" .monitoring none none) = true ∧
    update_state (svcWithState .created) "s1" .completed none none
      = .error .invalidTransition :=
  (state_machine_endpoints (svcWithState .created) "s1" ⟨.created, none, none⟩ rfl).1 rfl

/-- Session metadata observed through an `Except`-wrapped service result:
`none` on the error branch or when the id is absent. -/
def session_view (r : Except SessionError (SessionService α)) (sid : String) :
    Option (SessionMetadata α) :=
  match r with
  | .error _ => none
  | .ok svc => alistGet svc.sessions sid

/-- Data store observed through an `Except`-wrapped service result. -/
def data_view (r : Except SessionError (SessionService α)) (sid : String) :
    Option (List (String × α)) :=
  match r with
  | .error _ => none
  | .ok svc => alistGet svc.sessionData sid

/-- Sequencing `create_checkpoint`, then `update_state` without re-passing
the snapshot (checkpoint argument `none`, the Python default), then
`rollback_to_checkpoint`. -/
def checkpoint_transition_rollback (svc : SessionService α) (sid : String)
    (newState : SessionState) (agent : Option String) :
    Except SessionError (SessionService α) :=
  match create_checkpoint svc sid with
  | .error e => .error e
  | .ok (_, svc1) =>
    match update_state svc1 sid newState agent none with
    | .error e => .error e
    | .ok svc2 => rollback_to_checkpoint svc2 sid

/-- C6: the claim says `checkpoint` followed immediately by `rollback`
restores state, stage and data store and returns cleanly.  The code cannot:
`create_checkpoint` stores `session.state.value` (the lowercase value string,
here "monitoring"), but `rollback_to_checkpoint` restores it with the
name-based subscript `SessionState[checkpoint["state"]]`, whose member names
are uppercase — so after assigning the data-store snapshot back, the lookup
raises `KeyError` and state and stage are never restored.  On the concrete
service `svcMon` the roundtrip ends in `KeyError: monitoring`. -/
theorem checkpoint_rollback_keyerror :
    SessionState.value .monitoring = "monitoring" ∧
    sessionStateByName "monitoring" = none ∧
    sessionStateByName "MONITORING" = some .monitoring ∧
    checkpoint_then_rollback svcMon "s1" = .error (.keyError "monitoring") := by
  refine ⟨rfl, rfl, rfl, ?_⟩
  decide

/-- C7: every successful `update_state` overwrites the stored checkpoint with
its checkpoint argument (Python default `None`); hence checkpointing, then
performing any valid transition without re-passing the snapshot, then rolling
back, fails with the no-checkpoint error — the transition discards the
stored checkpoint. -/
theorem transition_discards_checkpoint (svc : SessionService α) (sid : String)
    (s : SessionMetadata α) (d : List (String × α)) (newState : SessionState)
    (agent : Option String)
    (hs : alistGet svc.sessions sid = some s)
    (hd : alistGet svc.sessionData sid = some d)
    (hv : is_valid_transition s.state newState = true) :
    (∀ cpArg : Option (Checkpoint α),
      exceptOk (update_state svc sid newState agent cpArg) = true ∧
      session_view (update_state svc sid newState agent cpArg) sid
        = some ⟨newState, agent, cpArg⟩) ∧
    checkpoint_transition_rollback svc sid newState agent = .error .noCheckpoint := by
  constructor
  · intro cpArg
    constructor <;>
      simp [update_state, hs, hv, exceptOk, session_view, alistGet_alistSet_self]
  · simp [checkpoint_transition_rollback, create_checkpoint, update_state,
      rollback_to_checkpoint, hs, hd, hv, alistGet_alistSet_self]

/-- C7 witness: instantiation of `transition_discards_checkpoint` at the
concrete service `svcMon`, taking the valid transition
`monitoring -> deathDetected`. -/
theorem transition_discards_checkpoint_witness :
    (∀ cpArg : Option (Checkpoint Nat),
      exceptOk (update_state svcMon "s1" .deathDetected (some "stageB") cpArg) = true ∧
      session_view (update_state svcMon "s1" .deathDetected (some "stageB") cpArg) "s1"
        = some ⟨.deathDetected, some "stageB", cpArg⟩) ∧
    checkpoint_transition_rollback svcMon "s1" .deathDetected (some "stageB")
      = .error .noCheckpoint :=
  transition_discards_checkpoint svcMon "s1" ⟨.monitoring, some "stageA", none⟩
    [("k", 7)] .deathDetected (some "stageB") rfl rfl (by decide)

/-- An attempt function that always fails with `HTTPError(404)`, the 4xx
client error (other than 429) of the claim. -/
def attemptAlways404 (_attempt : Nat) : Except PyErr Nat := .error (.httpError 404)

/-- An attempt function that always fails with `InvalidKeyError`
(InvalidCredential). -/
def attemptInvalidKey (_attempt : Nat) : Except PyErr Nat := .error .invalidKeyError

/-- C2 counterexample: the claim says a 4xx client error other than 429 is
propagated after exactly one attempt with no backoff sleep.  With
`maxRetries = 3` and every attempt failing with `HTTPError(404)`, the loop
performs all 4 attempts and sleeps three times — only `InvalidKeyError`
appears in the `isinstance` short-circuit of `with_retry`. -/
theorem clientError404_is_retried :
    with_retry 3 (1 / 2) false (fun _j => 1) attemptAlways404
      = ⟨.error (.httpError 404), 4, [1 / 2, 1, 2]⟩ ∧
    classify_error (.httpError 404) = "HTTPError(404)" := by
  constructor
  · simp [with_retry, with_retry_go, attemptAlways404, nonRetryableInCode,
      calculate_backoff_delay]
    norm_num
  · rfl

/-- C2 amended: if the first attempt fails with `InvalidKeyError`
(InvalidCredential), the error is propagated immediately after exactly one
attempt, with no further attempts and no backoff sleep; 4xx client errors
other than 429 do not short-circuit and are retried like transient errors. -/
theorem invalidKey_short_circuits (maxRetries : Nat) (baseDelay : ℚ)
    (useJitter : Bool) (jitter : Nat → ℚ) (f : Nat → Except PyErr α)
    (h : f 0 = .error .invalidKeyError) :
    with_retry maxRetries baseDelay useJitter jitter f
      = ⟨.error .invalidKeyError, 1, []⟩ := by
  simp [with_retry, with_retry_go, h, nonRetryableInCode]

/-- C2 witness: instantiation of `invalidKey_short_circuits` at a concrete
always-failing attempt function. -/
theorem invalidKey_short_circuits_witness :
    with_retry 3 (1 / 2) true (fun _j => 1) attemptInvalidKey
      = ⟨.error .invalidKeyError, 1, []⟩ :=
  invalidKey_short_circuits 3 (1 / 2) true (fun _j => 1) attemptInvalidKey rfl

/-- The environment of the C3 counterexample: no force-live override, the
use-live toggle set, no mock-override — and no credentials at all, so the
critical key GEMINI_API_KEY is missing. -/
def envMissingCreds : ModeEnv := ⟨false, true, false, []⟩

/-- C3 counterexample: with the use-live toggle set, no mock-override and the
critical credential missing, the claim says the effective mode is Synthetic;
the code's `FINAL_MOCK_MODE` logic never consults credentials and resolves
Live. -/
theorem live_mode_ignores_credentials :
    USE_REALTIME envMissingCreds = true ∧ effective_live_spec envMissingCreds = false := by
  decide

/-- C3 amended: the effective mode is Live iff the force-live override is
set, or else the use-live toggle is set and the mock-override is absent;
critical-credential availability plays no part in the mode resolution (a
missing critical key only produces a startup warning). -/
theorem effective_mode_resolution (env : ModeEnv) :
    USE_REALTIME env
      = (env.forceRealtimeOverride || (env.realtimeMode && !env.useMockDataFlag)) := by
  obtain ⟨f, r, m, c⟩ := env
  cases f <;> cases r <;> cases m <;> rfl

/-- C4: with a non-empty evidence list, the confirmation decision computes
the arithmetic mean of the confidences and confirms exactly when the manual
override is set or the mean reaches the mode-dependent threshold — 0.85 in
live mode, 0.60 in synthetic mode. -/
theorem death_confirmation_mean_threshold (useRealtime manualTrigger : Bool)
    (evidence : List ℚ) (h : evidence ≠ []) :
    (death_detection_confirm useRealtime manualTrigger evidence).confidence
      = evidence.sum / (evidence.length : ℚ) ∧
    ((death_detection_confirm useRealtime manualTrigger evidence).isConfirmed = true ↔
      (manualTrigger = true ∨
        get_confidence_threshold useRealtime ≤ evidence.sum / (evidence.length : ℚ))) ∧
    get_confidence_threshold true = 85 / 100 ∧
    get_confidence_threshold false = 60 / 100 := by
  refine ⟨?_, ?_, rfl, rfl⟩
  · simp [death_detection_confirm, h]
  · simp [death_detection_confirm, h]

/-- C4 witness: instantiation of `death_confirmation_mean_threshold` at the
worked example of the spec, evidence `[0.9, 0.95, 0.97]` in live mode
without manual override. -/
theorem death_confirmation_mean_threshold_witness :
    (death_detection_confirm true false [9/10, 19/20, 97/100]).confidence
      = List.sum [9/10, 19/20, 97/100] / ((List.length [9/10, 19/20, 97/100] : Nat) : ℚ) ∧
    ((death_detection_confirm true false [9/10, 19/20, 97/100]).isConfirmed = true ↔
      (false = true ∨
        get_confidence_threshold true
          ≤ List.sum [9/10, 19/20, 97/100] / ((List.length [9/10, 19/20, 97/100] : Nat) : ℚ))) ∧
    get_confidence_threshold true = 85 / 100 ∧
    get_confidence_threshold false = 60 / 100 :=
  death_confirmation_mean_threshold true false [9/10, 19/20, 97/100] (by simp)

/-- A rate limiter with capacity 3 and a 1-second window, no requests yet —
the `N=3, W=1s` scenario of the spec. -/
def rlDemo0 : RateLimiter := ⟨3, 1, []⟩

/-- State after the first immediate `admit` call (time 0). -/
def rlDemo1 : RateLimiter := (is_allowed rlDemo0 0 "cap").2

/-- State after the second immediate `admit` call. -/
def rlDemo2 : RateLimiter := (is_allowed rlDemo1 0 "cap").2

/-- State after the third immediate `admit` call. -/
def rlDemo3 : RateLimiter := (is_allowed rlDemo2 0 "cap").2

/-- State after the fourth immediate `admit` call (denied). -/
def rlDemo4 : RateLimiter := (is_allowed rlDemo3 0 "cap").2

/-- C9: `admit` returns true iff, after pruning timestamps older than the
trailing window, fewer than `maxRequests` timestamps remain for that
capability, and the current timestamp is recorded exactly when it admits;
with `N=3, W=1s`, three immediate calls admit, the fourth is denied, and
`wait_time` afterwards is strictly positive and at most `W`. -/
theorem rate_limiter_admission :
    (∀ (rl : RateLimiter) (now : ℚ) (tool : String),
      ((is_allowed rl now tool).1 = true ↔
        (pruned_requests rl now tool).length < rl.maxRequests) ∧
      getRequests (is_allowed rl now tool).2 tool
        = (if (pruned_requests rl now tool).length < rl.maxRequests then
            pruned_requests rl now tool ++ [now]
          else pruned_requests rl now tool)) ∧
    (is_allowed rlDemo0 0 "cap").1 = true ∧
    (is_allowed rlDemo1 0 "cap").1 = true ∧
    (is_allowed rlDemo2 0 "cap").1 = true ∧
    (is_allowed rlDemo3 0 "cap").1 = false ∧
    0 < wait_time rlDemo4 0 "cap" ∧
    wait_time rlDemo4 0 "cap" ≤ rlDemo0.windowSeconds := by
  refine ⟨fun rl now tool => ?_, ?_⟩
  · constructor
    · by_cases hlt : (pruned_requests rl now tool).length < rl.maxRequests <;>
        simp [is_allowed, hlt]
    · by_cases hlt : (pruned_requests rl now tool).length < rl.maxRequests <;>
        simp [is_allowed, getRequests, hlt, alistGet_alistSet_self]
  · refine ⟨?_, ?_, ?_, ?_, ?_, ?_⟩ <;>
      norm_num [rlDemo4, rlDemo3, rlDemo2, rlDemo1, rlDemo0, is_allowed, wait_time,
        getRequests, pruned_requests, alistGet, alistSet, listMin]

/-- C10: for every attempt number (in particular those up to `maxRetries`)
and positive base delay, the no-jitter backoff delay is exactly
`baseDelay * 2 ^ attempt`, and with jitter enabled — the uniform draw lying
in `[0.75, 1.25]` — the delay lies within
`[0.75, 1.25] × baseDelay × 2 ^ attempt`. -/
theorem backoff_delay_bounds (attempt maxRetries : Nat) (baseDelay jitterFactor : ℚ)
    (hbase : 0 < baseDelay) (_hatt : attempt ≤ maxRetries)
    (hj1 : 3 / 4 ≤ jitterFactor) (hj2 : jitterFactor ≤ 5 / 4) :
    calculate_backoff_delay attempt baseDelay false jitterFactor
      = baseDelay * 2 ^ attempt ∧
    3 / 4 * (baseDelay * 2 ^ attempt)
      ≤ calculate_backoff_delay attempt baseDelay true jitterFactor ∧
    calculate_backoff_delay attempt baseDelay true jitterFactor
      ≤ 5 / 4 * (baseDelay * 2 ^ attempt) := by
  have hD : (0 : ℚ) < baseDelay * 2 ^ attempt :=
    mul_pos hbase (pow_pos (by norm_num) attempt)
  refine ⟨rfl, ?_, ?_⟩ <;>
    simp only [calculate_backoff_delay, if_true, if_pos] <;>
    nlinarith [hD, hj1, hj2]

/-- C10 witness: instantiation of `backoff_delay_bounds` at attempt 2 of at
most 3 retries, base delay 0.5 and jitter factor 1. -/
theorem backoff_delay_bounds_witness :
    calculate_backoff_delay 2 (1 / 2) false 1 = 1 / 2 * 2 ^ 2 ∧
    3 / 4 * (1 / 2 * 2 ^ 2) ≤ calculate_backoff_delay 2 (1 / 2) true 1 ∧
    calculate_backoff_delay 2 (1 / 2) true 1 ≤ 5 / 4 * (1 / 2 * 2 ^ 2) :=
  backoff_delay_bounds 2 3 (1 / 2) 1 (by norm_num) (by norm_num) (by norm_num) (by norm_num)

end GhostProtocol
